import Mathlib

/-!
# Shallow embedding of `SimplePlot.py` (PyplotWrapper)

The repository consists of one module, `SimplePlot.py`, holding a module-level
helper `check_file_writable` and a builder class `SimplePlot`.  This file embeds
the builder state and every method faithfully:

* Python numeric values appear only in order comparisons (`min`, `max`, `<`,
  `>`, `<= 0`), never in rounding-sensitive arithmetic, so they are modelled
  exactly as rationals (`PyFloat := ℚ`).
* `None`-or-value slots are `Option`s.
* A method call is a function from the old state to a `PyRes`: either `ok`
  with the new state, or `exn` with the state as it stands at the moment the
  exception is raised (mutations performed before the raise persist, exactly
  as in Python).
* Text coercion (`f"{x}"`, `float(x)`) is modelled at its result: labels are
  already strings, numeric inputs already numbers.  Inputs of entirely wrong
  type (non-sequence data, non-string filenames) raise in Python before any
  state change; those inputs are outside the embedded input types.
* The filesystem queries used by `check_file_writable` (`os.path.exists`,
  `os.path.isfile`, `os.access(_, W_OK)`) are an oracle structure `FS`;
  `os.path.dirname` is implemented concretely, following `posixpath.dirname`.
* The pyplot calls issued by `create` are recorded in a `RenderCall` value;
  `create` returns either an exception or the delegated call together with
  the builder state after the call.
-/

abbrev PyFloat : Type := ℚ

/-- Filesystem oracle: the three `os` queries used by `check_file_writable`. -/
structure FS where
  pathExists : String → Bool
  pathIsFile : String → Bool
  accessW : String → Bool

/-- Index of the last occurrence of a slash in the character list (Python
`str.rfind` restricted to what `posixpath.dirname` needs). -/
def lastSlashPos : List Char → Option Nat
  | [] => none
  | c :: cs =>
    match lastSlashPos cs with
    | some i => some (i + 1)
    | none => if c = '/' then some 0 else none

/-- `str.rstrip("/")` on a character list. -/
def rstripSlash (l : List Char) : List Char :=
  (l.reverse.dropWhile (fun c => c = '/')).reverse

/-- `posixpath.dirname` on a character list: take everything up to and
including the last slash, then strip trailing slashes unless the head is
empty or consists only of slashes. -/
def dirnameChars (p : List Char) : List Char :=
  let i : Nat :=
    match lastSlashPos p with
    | some k => k + 1
    | none => 0
  let head := p.take i
  if head ≠ [] ∧ ¬(head.all (fun c => c = '/')) then rstripSlash head else head

/-- `os.path.dirname` for strings. -/
def dirname (p : String) : String := String.mk (dirnameChars p.toList)

/-- `check_file_writable(f)` from `SimplePlot.py`: writability of an existing
regular file, `False` for an existing non-file, and writability of the parent
directory (or `"."` when the path has no directory part) otherwise. -/
def check_file_writable (fs : FS) (f : String) : Bool :=
  if fs.pathExists f then
    if fs.pathIsFile f then fs.accessW f else false
  else
    let parent := dirname f
    let parent2 := if parent = "" then "." else parent
    fs.accessW parent2

/-- The mutable state of a `SimplePlot` instance: one field per attribute set
in `__init__`. -/
structure PState where
  dpi : PyFloat
  x_data : Option (List PyFloat)
  y_data : List (List PyFloat)
  x_label : Option String
  y_label : Option String
  title : Option String
  legend : List (Option String)
  y_limits : Option PyFloat × Option PyFloat
  x_limits : Option PyFloat × Option PyFloat
  log_x : Bool
  log_y : Bool
  grid : Option (String × String)
deriving Repr, DecidableEq

/-- Result of one method call: `ok` with the new state, or `exn` with the
state at the moment the exception was raised and the message. -/
inductive PyRes where
  | ok (st : PState) : PyRes
  | exn (st : PState) (msg : String) : PyRes
deriving Repr, DecidableEq

/-- The state carried by a result, whether it ended in `ok` or `exn`. -/
def PyRes.state : PyRes → PState
  | .ok s => s
  | .exn s _ => s

/-- Whether the call returned normally. -/
def PyRes.isOk : PyRes → Bool
  | .ok _ => true
  | .exn _ _ => false

/-- Python `raise`-free sequencing: run `f` on the new state unless an
exception is already in flight. -/
def PyRes.bind (r : PyRes) (f : PState → PyRes) : PyRes :=
  match r with
  | .ok s => f s
  | .exn s m => .exn s m

namespace SimplePlot

/-- `SimplePlot.__init__(title)`: the defaults set in the constructor. -/
def init (title : Option String) : PState where
  dpi := 1200
  x_data := none
  y_data := []
  x_label := none
  y_label := none
  title := title
  legend := []
  y_limits := (some 0, none)
  x_limits := (none, none)
  log_x := false
  log_y := false
  grid := none

/-- `set_dpi(dpi)`: reject values `<= 0` after numeric coercion, store the
rest. -/
def set_dpi (s : PState) (dpi : PyFloat) : PyRes :=
  if dpi ≤ 0 then .exn s "Negative dpi value not allowed."
  else .ok { s with dpi := dpi }

/-- `set_grid(color, style)`: `color=None` disables the grid. -/
def set_grid (s : PState) (color : Option String) (style : String) : PState :=
  match color with
  | none => { s with grid := none }
  | some c => { s with grid := some (c, style) }

/-- `set_x_label(label)` (string coercion already applied). -/
def set_x_label (s : PState) (label : Option String) : PState :=
  { s with x_label := label }

/-- `set_y_label(label)` (string coercion already applied). -/
def set_y_label (s : PState) (label : Option String) : PState :=
  { s with y_label := label }

/-- `set_x_limits(xmin, xmax)`: rejects the call when the X axis is
logarithmic; otherwise assigns the pair to `self.__y_limits` — this is what
line 149 of the source does, it never touches `self.__x_limits`. -/
def set_x_limits (s : PState) (xmin xmax : Option PyFloat) : PyRes :=
  if s.log_x then .exn s "Limits not allowed for logarithmic axes."
  else .ok { s with y_limits := (xmin, xmax) }

/-- `set_y_limits(ymin, ymax)`: rejects the call when the Y axis is
logarithmic; otherwise assigns the pair to `self.__y_limits`. -/
def set_y_limits (s : PState) (ymin ymax : Option PyFloat) : PyRes :=
  if s.log_y then .exn s "Limits not allowed for logarithmic axes."
  else .ok { s with y_limits := (ymin, ymax) }

/-- Python `min(seq)` on numbers; `none` models the `ValueError` on an empty
sequence. -/
def pyMin : List PyFloat → Option PyFloat
  | [] => none
  | a :: as => some (as.foldl min a)

/-- Python `max(seq)` on numbers; `none` models the `ValueError` on an empty
sequence. -/
def pyMax : List PyFloat → Option PyFloat
  | [] => none
  | a :: as => some (as.foldl max a)

/-- Lines 199-202 of `set_x_data`: when a lower X bound is stored, clear it
if `min(x_data)` falls below it (`min` raises on an empty sequence). -/
def retract_lower_x (s : PState) (d : List PyFloat) : PyRes :=
  match s.x_limits.1 with
  | none => .ok s
  | some lo =>
    match pyMin d with
    | none => .exn s "min() arg is an empty sequence"
    | some m =>
      if m < lo then .ok { s with x_limits := (none, s.x_limits.2) } else .ok s

/-- Lines 204-207 of `set_x_data`: when an upper X bound is stored, compare
`max(x_data)` against `self.__x_limits[0]` — the LOWER bound, as the source
does — and clear the upper bound on `m > self.__x_limits[0]`.  When the lower
bound is `None` at that point the comparison is a Python `TypeError`. -/
def retract_upper_x (s : PState) (d : List PyFloat) : PyRes :=
  match s.x_limits.2 with
  | none => .ok s
  | some _ =>
    match pyMax d with
    | none => .exn s "max() arg is an empty sequence"
    | some m =>
      match s.x_limits.1 with
      | none => .exn s "comparison of float and NoneType"
      | some lo =>
        if lo < m then .ok { s with x_limits := (s.x_limits.1, none) } else .ok s

/-- The X-bound retraction block of `set_x_data`, lower check then upper
check, threading the state. -/
def retract_x_limits (s : PState) (d : List PyFloat) : PyRes :=
  (retract_lower_x s d).bind (fun s2 => retract_upper_x s2 d)

/-- Lines 235-238 of `add_y_data`: lower Y bound retraction. -/
def retract_lower_y (s : PState) (d : List PyFloat) : PyRes :=
  match s.y_limits.1 with
  | none => .ok s
  | some lo =>
    match pyMin d with
    | none => .exn s "min() arg is an empty sequence"
    | some m =>
      if m < lo then .ok { s with y_limits := (none, s.y_limits.2) } else .ok s

/-- Lines 240-243 of `add_y_data`: upper Y bound retraction; as in the source
the new maximum is compared against `self.__y_limits[0]`, the lower bound. -/
def retract_upper_y (s : PState) (d : List PyFloat) : PyRes :=
  match s.y_limits.2 with
  | none => .ok s
  | some _ =>
    match pyMax d with
    | none => .exn s "max() arg is an empty sequence"
    | some m =>
      match s.y_limits.1 with
      | none => .exn s "comparison of float and NoneType"
      | some lo =>
        if lo < m then .ok { s with y_limits := (s.y_limits.1, none) } else .ok s

/-- The Y-bound retraction block of `add_y_data`. -/
def retract_y_limits (s : PState) (d : List PyFloat) : PyRes :=
  (retract_lower_y s d).bind (fun s2 => retract_upper_y s2 d)

/-- `set_x_data(x_data)`: reject empty input and a length mismatch with the
first stored Y series, run the X-bound retraction block, then overwrite the
stored X series. -/
def set_x_data (s : PState) (xd : List PyFloat) : PyRes :=
  if xd.length = 0 then .exn s "x_data is empty"
  else
    match s.y_data with
    | y0 :: _ =>
      if xd.length ≠ y0.length then
        .exn s "Each y data set must be of the same length as the x data set"
      else
        (retract_x_limits s xd).bind (fun s2 => .ok { s2 with x_data := some xd })
    | [] =>
      (retract_x_limits s xd).bind (fun s2 => .ok { s2 with x_data := some xd })

/-- `add_y_data(y_data, label)`: length check against the X series when one
is stored, else against the first Y series; then the Y-bound retraction
block; then append the label and the series. -/
def add_y_data (s : PState) (yd : List PyFloat) (label : Option String) : PyRes :=
  match s.x_data with
  | some xd =>
    if yd.length ≠ xd.length then
      .exn s "Each y data set must be of the same length as the x data set"
    else
      (retract_y_limits s yd).bind (fun s2 =>
        .ok { s2 with legend := s2.legend ++ [label], y_data := s2.y_data ++ [yd] })
  | none =>
    match s.y_data with
    | y0 :: _ =>
      if yd.length ≠ y0.length then
        .exn s "All y data sets must have the same length"
      else
        (retract_y_limits s yd).bind (fun s2 =>
          .ok { s2 with legend := s2.legend ++ [label], y_data := s2.y_data ++ [yd] })
    | [] =>
      (retract_y_limits s yd).bind (fun s2 =>
        .ok { s2 with legend := s2.legend ++ [label], y_data := s2.y_data ++ [yd] })

/-- The `for i in range(len(y_list))` loop of `add_y_sets`: fetch the `i`-th
series and label and delegate to `add_y_data`; a raise aborts the loop with
the entries added so far kept. -/
def add_y_sets_go (y_list : List (List PyFloat))
    (y_labels : Option (List (Option String))) (i : Nat) (s : PState) : PyRes :=
  if h : i < y_list.length then
    let label : Option String :=
      match y_labels with
      | some ls => ls.getD i none
      | none => none
    match add_y_data s (y_list.get ⟨i, h⟩) label with
    | .ok s2 => add_y_sets_go y_list y_labels (i + 1) s2
    | .exn s2 m => .exn s2 m
  else .ok s
termination_by y_list.length - i

/-- `add_y_sets(y_list, y_labels)`: validate that the labels, when given,
match the series list in length, then run the loop. -/
def add_y_sets (s : PState) (y_list : List (List PyFloat))
    (y_labels : Option (List (Option String))) : PyRes :=
  match y_labels with
  | some ls =>
    if ls.length ≠ y_list.length then
      .exn s "There must be one label per y data set"
    else add_y_sets_go y_list y_labels 0 s
  | none => add_y_sets_go y_list none 0 s

/-- `set_log_scale(x, y)`: overwrite both flags, and clear the limits of each
axis whose new flag is true. -/
def set_log_scale (s : PState) (x y : Bool) : PState :=
  let s1 := { s with log_x := x, log_y := y }
  let s2 := if x then { s1 with x_limits := (none, none) } else s1
  if y then { s2 with y_limits := (none, none) } else s2

/-- The structured plot description that `create` hands to pyplot: one record
per piece of information passed through `ax.plot`, `ax.legend`,
`set_xlim`/`set_xscale`, `set_ylim`/`set_yscale`, the text setters, `ax.grid`
and `savefig`/`show`. -/
structure RenderCall where
  x_data : List PyFloat
  y_series : List (List PyFloat)
  plot_labels : List String
  use_legend : Bool
  log_x : Bool
  x_limits : Option PyFloat × Option PyFloat
  log_y : Bool
  y_limits : Option PyFloat × Option PyFloat
  x_label : Option String
  y_label : Option String
  title : Option String
  grid : Option (String × String)
  output : Option String
  dpi : PyFloat
deriving Repr, DecidableEq

/-- Result of `create`: a raised precondition error (with the untouched
state), or the delegated render call together with the builder state after
the call. -/
inductive CreateRes where
  | exn (st : PState) (msg : String) : CreateRes
  | render (st : PState) (call : RenderCall) : CreateRes
deriving Repr, DecidableEq

/-- The builder state after a `create` call, however it ended. -/
def CreateRes.state : CreateRes → PState
  | .exn s _ => s
  | .render s _ => s

/-- The legend flag of the delegated call, when delegation happened. -/
def CreateRes.legendFlag : CreateRes → Option Bool
  | .exn _ _ => none
  | .render _ c => some c.use_legend

/-- Lines 312-364 of `create`, after the precondition checks: compute
`use_legend` from the stored labels, overwrite each `None` entry of
`self.__legend` with `''` in place, and issue the render call from the
updated state. -/
def create_delegate (s : PState) (xd : List PyFloat) (filename : Option String) :
    CreateRes :=
  let useLegend := s.legend.any (fun l => l ≠ none)
  let s2 := { s with legend := s.legend.map (fun l => some (l.getD "")) }
  .render s2
    { x_data := xd
      y_series := s2.y_data
      plot_labels := s2.legend.map (fun l => l.getD "")
      use_legend := useLegend
      log_x := s2.log_x
      x_limits := s2.x_limits
      log_y := s2.log_y
      y_limits := s2.y_limits
      x_label := s2.x_label
      y_label := s2.y_label
      title := s2.title
      grid := s2.grid
      output := filename
      dpi := s2.dpi }

/-- `create(filename)`: raise when no X data is stored; raise when a filename
is given and `check_file_writable` denies it; otherwise delegate.  (The
source also raises on `self.__y_data is None`, which no reachable state
satisfies: `__y_data` is a list from `__init__` on; the embedding types it as
a list.) -/
def create (fs : FS) (s : PState) (filename : Option String) : CreateRes :=
  match s.x_data with
  | none => .exn s "No x data set"
  | some xd =>
    match filename with
    | some fn =>
      if check_file_writable fs fn then create_delegate s xd (some fn)
      else .exn s "File cannot be created or written"
    | none => create_delegate s xd none

end SimplePlot

/-- One public operation on a builder, for stating whole-lifecycle
invariants. -/
inductive Op where
  | setDpi (v : PyFloat)
  | setGrid (color : Option String) (style : String)
  | setXLabel (l : Option String)
  | setYLabel (l : Option String)
  | setXLimits (a b : Option PyFloat)
  | setYLimits (a b : Option PyFloat)
  | setXData (d : List PyFloat)
  | addYData (d : List PyFloat) (l : Option String)
  | addYSets (ds : List (List PyFloat)) (ls : Option (List (Option String)))
  | setLogScale (x y : Bool)
  | doCreate (fn : Option String)

/-- The builder state after one operation, whether it returned or raised. -/
def stepState (fs : FS) (s : PState) : Op → PState
  | .setDpi v => (SimplePlot.set_dpi s v).state
  | .setGrid c st => SimplePlot.set_grid s c st
  | .setXLabel l => SimplePlot.set_x_label s l
  | .setYLabel l => SimplePlot.set_y_label s l
  | .setXLimits a b => (SimplePlot.set_x_limits s a b).state
  | .setYLimits a b => (SimplePlot.set_y_limits s a b).state
  | .setXData d => (SimplePlot.set_x_data s d).state
  | .addYData d l => (SimplePlot.add_y_data s d l).state
  | .addYSets ds ls => (SimplePlot.add_y_sets s ds ls).state
  | .setLogScale x y => SimplePlot.set_log_scale s x y
  | .doCreate fn => (SimplePlot.create fs s fn).state

/-- The builder state after a sequence of operations. -/
def runOps (fs : FS) (s : PState) : List Op → PState
  | [] => s
  | op :: ops => runOps fs (stepState fs s op) ops

/-- Whether `create` reached the delegation to pyplot. -/
def SimplePlot.CreateRes.isRender : SimplePlot.CreateRes → Bool
  | .exn _ _ => false
  | .render _ _ => true

/-- A filesystem oracle denying every query (no `create` call below that uses
it ever consults it about a file). -/
def fsNone : FS := ⟨fun _ => false, fun _ => false, fun _ => false⟩

/-- A reachable builder state: fresh instance, `set_x_data([2])`, then
`add_y_data([1])` with no label. -/
def exampleState : PState :=
  (SimplePlot.add_y_data
    ((SimplePlot.set_x_data (SimplePlot.init none) [2]).state) [1] none).state

/-- C1: the claim says `set_x_limits(5, 10)` stores `5` as the lower X bound
and a later `set_x_data([6])` (with `min = 6 >= 5`) retains it.  In the code
`set_x_limits` assigns the pair to `self.__y_limits` (line 149), so the X
limits stay `(None, None)` and no lower X bound exists to retain: after the
two calls the lower X bound is `None`, not `5`. -/
theorem C1_set_x_limits_stores_into_y_limits :
    ((SimplePlot.set_x_limits (SimplePlot.init none) (some 5) (some 10)).state.x_limits
      = (none, none)) ∧
    ((SimplePlot.set_x_limits (SimplePlot.init none) (some 5) (some 10)).state.y_limits
      = (some 5, some 10)) ∧
    (((SimplePlot.set_x_limits (SimplePlot.init none) (some 5) (some 10)).bind
        (fun s => SimplePlot.set_x_data s [6])).state.x_limits.1 = none) := by
  refine ⟨rfl, rfl, rfl⟩

/-- C2: the claim says the upper bound is cleared only when the new maximum
exceeds it.  After `set_y_limits(0, 10)`, the call `add_y_data([5])` has
maximum `5 <= 10`, yet the code compares that maximum against the LOWER
bound (`5 > 0`, line 242) and clears the upper bound: the resulting Y limits
are `(0, None)` and the call still succeeds. -/
theorem C2_upper_bound_cleared_against_lower_bound :
    (((SimplePlot.set_y_limits (SimplePlot.init none) (some 0) (some 10)).bind
        (fun s => SimplePlot.add_y_data s [5] none)).state.y_limits = (some 0, none)) ∧
    (((SimplePlot.set_y_limits (SimplePlot.init none) (some 0) (some 10)).bind
        (fun s => SimplePlot.add_y_data s [5] none)).isOk = true) := by
  refine ⟨by decide, rfl⟩

/-- C5: `create` on a builder with no X data raises `No x data set` with the
state untouched, for every filesystem, every destination argument and every
number of stored Y series — in particular no writability check and no render
call happens. -/
theorem C5_create_without_x_data_raises (fs : FS) (s : PState)
    (fn : Option String) (h : s.x_data = none) :
    SimplePlot.create fs s fn = .exn s "No x data set" := by
  unfold SimplePlot.create
  rw [h]

/-- Witness for C5 at a concrete builder that has one Y series and a
destination path: the error is raised all the same. -/
theorem C5_create_without_x_data_raises_witness :
    ((SimplePlot.add_y_data (SimplePlot.init none) [1] (some "a")).state.x_data = none) ∧
    (SimplePlot.create fsNone
        (SimplePlot.add_y_data (SimplePlot.init none) [1] (some "a")).state
        (some "out.png")
      = .exn (SimplePlot.add_y_data (SimplePlot.init none) [1] (some "a")).state
          "No x data set") :=
  ⟨rfl, C5_create_without_x_data_raises fsNone _ (some "out.png") rfl⟩

/-- C10: `set_log_scale` overwrites both logarithmic flags unconditionally
with its two arguments; in particular `set_log_scale(y=True)` after
`set_log_scale(x=True)` leaves only Y logarithmic and silently resets X to
linear. -/
theorem C10_set_log_scale_overwrites_both_flags (s : PState) (bx b2 : Bool) :
    ((SimplePlot.set_log_scale s bx b2).log_x = bx) ∧
    ((SimplePlot.set_log_scale s bx b2).log_y = b2) ∧
    ((SimplePlot.set_log_scale (SimplePlot.set_log_scale s true false) false true).log_x
      = false) ∧
    ((SimplePlot.set_log_scale (SimplePlot.set_log_scale s true false) false true).log_y
      = true) := by
  unfold SimplePlot.set_log_scale
  cases bx <;> cases b2 <;> simp


/-- `create` on a builder with no X data: the first precondition check fires. -/
theorem create_no_x (fs : FS) (s : PState) (fn : Option String)
    (hx : s.x_data = none) :
    SimplePlot.create fs s fn = .exn s "No x data set" := by
  unfold SimplePlot.create
  rw [hx]

/-- Case analysis of `create` once X data is present: no destination or a
writable destination reach the delegation, an unwritable destination raises. -/
theorem create_cases (fs : FS) (s : PState) (xd : List PyFloat)
    (hx : s.x_data = some xd) :
    (SimplePlot.create fs s none = SimplePlot.create_delegate s xd none) ∧
    (∀ f, check_file_writable fs f = true →
      SimplePlot.create fs s (some f) = SimplePlot.create_delegate s xd (some f)) ∧
    (∀ f, check_file_writable fs f = false →
      SimplePlot.create fs s (some f)
        = .exn s "File cannot be created or written") := by
  refine ⟨?_, ?_, ?_⟩ <;> (try intro f hw) <;> unfold SimplePlot.create <;> rw [hx] <;> simp [*]

/-- The builder state after the delegation step normalizes the stored labels
in place and changes nothing else. -/
theorem create_delegate_state (s : PState) (xd : List PyFloat)
    (fo : Option String) :
    (SimplePlot.create_delegate s xd fo).state
      = { s with legend := s.legend.map (fun l => some (l.getD "")) } := by
  simp [SimplePlot.create_delegate, SimplePlot.CreateRes.state]

/-- The legend flag of the delegated call is computed from the labels stored
at call time. -/
theorem create_delegate_flag (s : PState) (xd : List PyFloat)
    (fo : Option String) :
    (SimplePlot.create_delegate s xd fo).legendFlag
      = some (s.legend.any (fun l => l ≠ none)) := by
  simp [SimplePlot.create_delegate, SimplePlot.CreateRes.legendFlag]

/-- C3 counterexample: on a reachable builder whose single Y series was added
with label `None`, a successful `create` call changes the stored label list
(the `None` entry becomes `''` in place, lines 313-317), so the builder state
is not unchanged by finalize. -/
theorem C3_counterexample_create_mutates_stored_labels :
    (SimplePlot.create fsNone exampleState none).state.legend ≠ exampleState.legend := by
  decide

/-- C3 amended: when `create` reaches the delegation, every stored field is
unchanged except the label list, whose `None` entries are overwritten in
place with empty strings — the normalization hits the stored labels
themselves, not only the values passed to the renderer. -/
theorem C3_create_mutates_only_legend (fs : FS) (s : PState) (fn : Option String)
    (h : (SimplePlot.create fs s fn).isRender = true) :
    (SimplePlot.create fs s fn).state =
      { s with legend := s.legend.map (fun l => some (l.getD "")) } := by
  rcases hx : s.x_data with _ | xd
  · rw [create_no_x fs s fn hx] at h
    simp [SimplePlot.CreateRes.isRender] at h
  · rcases fn with _ | f
    · rw [(create_cases fs s xd hx).1]
      rw [create_delegate_state s xd none, hx]
    · rcases hw : check_file_writable fs f with _ | _
      · rw [(create_cases fs s xd hx).2.2 f hw] at h
        simp [SimplePlot.CreateRes.isRender] at h
      · rw [(create_cases fs s xd hx).2.1 f hw]
        rw [create_delegate_state s xd (some f), hx]

/-- Witness for the amended C3 at the concrete reachable builder. -/
theorem C3_create_mutates_only_legend_witness :
    ((SimplePlot.create fsNone exampleState none).isRender = true) ∧
    ((SimplePlot.create fsNone exampleState none).state =
      { exampleState with legend := exampleState.legend.map (fun l => some (l.getD "")) }) :=
  ⟨by decide, C3_create_mutates_only_legend fsNone exampleState none (by decide)⟩

/-- C4 counterexample: on a builder whose only `add_y_data` call supplied a
`None` label, the first `create` delegates with the legend disabled, but the
second `create` delegates with the legend ENABLED, because the first call
replaced the stored `None` label by `''` and `'' is not None`. -/
theorem C4_counterexample_second_create_enables_legend :
    ((SimplePlot.create fsNone exampleState none).legendFlag = some false) ∧
    ((SimplePlot.create fsNone
        (SimplePlot.create fsNone exampleState none).state none).legendFlag
      = some true) := by
  refine ⟨by decide, by decide⟩

/-- C4 amended: when `create` reaches the delegation, the legend flag it
passes is true iff at least one label stored AT THE TIME OF THE CALL is
non-`None`; after all-`None` adds only the first finalize is legend-disabled,
since finalize itself turns the stored `None` labels into `''`. -/
theorem C4_legend_flag_iff_some_label_at_call (fs : FS) (s : PState)
    (fn : Option String)
    (h : (SimplePlot.create fs s fn).isRender = true) :
    (SimplePlot.create fs s fn).legendFlag
      = some (s.legend.any (fun l => l ≠ none)) := by
  rcases hx : s.x_data with _ | xd
  · rw [create_no_x fs s fn hx] at h
    simp [SimplePlot.CreateRes.isRender] at h
  · rcases fn with _ | f
    · rw [(create_cases fs s xd hx).1]
      exact create_delegate_flag s xd none
    · rcases hw : check_file_writable fs f with _ | _
      · rw [(create_cases fs s xd hx).2.2 f hw] at h
        simp [SimplePlot.CreateRes.isRender] at h
      · rw [(create_cases fs s xd hx).2.1 f hw]
        exact create_delegate_flag s xd (some f)

/-- Witness for the amended C4 at the concrete reachable builder. -/
theorem C4_legend_flag_iff_some_label_at_call_witness :
    ((SimplePlot.create fsNone exampleState none).isRender = true) ∧
    ((SimplePlot.create fsNone exampleState none).legendFlag =
      some (exampleState.legend.any (fun l => l ≠ none))) :=
  ⟨by decide, C4_legend_flag_iff_some_label_at_call fsNone exampleState none (by decide)⟩

/-- C8: enabling logarithmic mode on an axis clears that axis's stored
bounds (whatever they were), and as long as the flag is set the bound setter
for that axis raises the domain error with the state — hence every stored
bound — untouched; in particular it raises immediately after the
log-enabling call. -/
theorem C8_log_scale_clears_and_blocks_limits (s : PState) (bx b2 : Bool)
    (a b : Option PyFloat) :
    ((SimplePlot.set_log_scale s true b2).x_limits = (none, none)) ∧
    ((SimplePlot.set_log_scale s bx true).y_limits = (none, none)) ∧
    (s.log_x = true →
      SimplePlot.set_x_limits s a b
        = .exn s "Limits not allowed for logarithmic axes.") ∧
    (s.log_y = true →
      SimplePlot.set_y_limits s a b
        = .exn s "Limits not allowed for logarithmic axes.") ∧
    (SimplePlot.set_x_limits (SimplePlot.set_log_scale s true b2) a b
      = .exn (SimplePlot.set_log_scale s true b2)
          "Limits not allowed for logarithmic axes.") ∧
    (SimplePlot.set_y_limits (SimplePlot.set_log_scale s bx true) a b
      = .exn (SimplePlot.set_log_scale s bx true)
          "Limits not allowed for logarithmic axes.") := by
  refine ⟨?_, ?_, ?_, ?_, ?_, ?_⟩
  · cases b2 <;> simp [SimplePlot.set_log_scale]
  · cases bx <;> simp [SimplePlot.set_log_scale]
  · intro h; simp [SimplePlot.set_x_limits, h]
  · intro h; simp [SimplePlot.set_y_limits, h]
  · cases b2 <;> simp [SimplePlot.set_x_limits, SimplePlot.set_log_scale]
  · cases bx <;> simp [SimplePlot.set_y_limits, SimplePlot.set_log_scale]

/-- A builder state with both bounds set on both axes, for exercising the
log-scale interaction concretely. -/
def sBounds : PState :=
  { SimplePlot.init none with x_limits := (some 1, some 2), y_limits := (some 3, some 4) }

/-- Witness for C8: on a state with all four bounds set, enabling log mode on
both axes clears both pairs, and the bound setter then raises. -/
theorem C8_log_scale_clears_and_blocks_limits_witness :
    ((SimplePlot.set_log_scale sBounds true true).log_x = true) ∧
    ((SimplePlot.set_log_scale sBounds true true).x_limits = (none, none)) ∧
    ((SimplePlot.set_log_scale sBounds true true).y_limits = (none, none)) ∧
    (SimplePlot.set_x_limits (SimplePlot.set_log_scale sBounds true true)
        (some 1) (some 2)
      = .exn (SimplePlot.set_log_scale sBounds true true)
          "Limits not allowed for logarithmic axes.") :=
  ⟨by decide,
   (C8_log_scale_clears_and_blocks_limits sBounds true true (some 1) (some 2)).1,
   (C8_log_scale_clears_and_blocks_limits sBounds true true (some 1) (some 2)).2.1,
   (C8_log_scale_clears_and_blocks_limits (SimplePlot.set_log_scale sBounds true true)
      true true (some 1) (some 2)).2.2.1 (by decide)⟩

/-- A list with no slash has no last-slash position. -/
theorem lastSlashPos_eq_none (l : List Char) (h : ∀ c ∈ l, c ≠ '/') :
    lastSlashPos l = none := by
  induction l with
  | nil => rfl
  | cons c cs ih =>
    unfold lastSlashPos
    rw [ih (fun d hd => h d (List.mem_cons_of_mem c hd))]
    simp [h c (List.mem_cons_self c cs)]

/-- A path without a separator has the empty dirname. -/
theorem dirname_no_slash (f : String) (h : ∀ c ∈ f.toList, c ≠ '/') :
    dirname f = "" := by
  unfold dirname dirnameChars
  rw [lastSlashPos_eq_none f.toList h]
  simp

/-- C9: the writability check returns the process's write permission on an
existing regular file; `false` for an existing non-file; and for a missing
file the write permission on `dirname`, with `"."` substituted when the path
has no parent component — it is a pure query of the filesystem oracle. -/
theorem C9_check_file_writable_cases (fs : FS) (f : String) :
    (fs.pathExists f = true → fs.pathIsFile f = true →
      check_file_writable fs f = fs.accessW f) ∧
    (fs.pathExists f = true → fs.pathIsFile f = false →
      check_file_writable fs f = false) ∧
    (fs.pathExists f = false →
      check_file_writable fs f
        = fs.accessW (if dirname f = "" then "." else dirname f)) ∧
    ((∀ c ∈ f.toList, c ≠ '/') → fs.pathExists f = false →
      check_file_writable fs f = fs.accessW ".") := by
  refine ⟨?_, ?_, ?_, ?_⟩
  · intro h1 h2; simp [check_file_writable, h1, h2]
  · intro h1 h2; simp [check_file_writable, h1, h2]
  · intro h1; simp [check_file_writable, h1]
  · intro hns h1; simp [check_file_writable, h1, dirname_no_slash f hns]

/-- A filesystem oracle where nothing exists and only the current directory
is writable. -/
def fsDot : FS := ⟨fun _ => false, fun _ => false, fun p => p = "."⟩

/-- Witness for C9 on the slash-free path `out.png` over a filesystem where
the path does not exist: the check queries the current directory. -/
theorem C9_check_file_writable_cases_witness :
    (fsDot.pathExists "out.png" = false) ∧
    (check_file_writable fsDot "out.png"
      = fsDot.accessW (if dirname "out.png" = "" then "." else dirname "out.png")) ∧
    (check_file_writable fsDot "out.png" = fsDot.accessW ".") :=
  ⟨rfl,
   (C9_check_file_writable_cases fsDot "out.png").2.2.1 rfl,
   (C9_check_file_writable_cases fsDot "out.png").2.2.2 (by decide) rfl⟩

/-- The in-order sequence of single-series `add_y_data` calls over explicit
(series, label) pairs: abort at the first raise, keeping the state reached so
far.  This is the behaviour the bulk accumulator is claimed to refine. -/
def chain_add_y (s : PState) : List (List PyFloat × Option String) → PyRes
  | [] => .ok s
  | (yd, lab) :: rest =>
    match SimplePlot.add_y_data s yd lab with
    | .ok s2 => chain_add_y s2 rest
    | .exn s2 m => .exn s2 m

/-- The indexed loop of `add_y_sets` agrees with the chained single calls on
the remaining suffix of series and labels. -/
theorem add_y_sets_go_eq_chain (ys : List (List PyFloat))
    (ls : List (Option String)) (hlen : ls.length = ys.length) :
    ∀ n i s, ys.length - i = n →
      SimplePlot.add_y_sets_go ys (some ls) i s
        = chain_add_y s ((ys.drop i).zip (ls.drop i)) := by
  intro n
  induction n with
  | zero =>
    intro i s h0
    have hge : ys.length ≤ i := Nat.le_of_sub_eq_zero h0
    unfold SimplePlot.add_y_sets_go
    rw [dif_neg (by omega), List.drop_eq_nil_of_le hge,
      List.drop_eq_nil_of_le (by omega : ls.length ≤ i)]
    simp [chain_add_y]
  | succ n ih =>
    intro i s hn
    have hi : i < ys.length := by omega
    have hi' : i < ls.length := by omega
    unfold SimplePlot.add_y_sets_go
    rw [dif_pos hi]
    dsimp only
    rw [List.drop_eq_getElem_cons hi, List.drop_eq_getElem_cons hi',
      List.zip_cons_cons]
    unfold chain_add_y
    dsimp only [List.get_eq_getElem]
    rw [List.getD_eq_getElem ls none hi']
    cases h2 : SimplePlot.add_y_data s ys[i] ls[i] with
    | ok s2 => exact ih (i + 1) s2 (by omega)
    | exn s2 m => rfl

/-- C6: for a label list matching the series list in length, `add_y_sets` is
exactly the in-order sequence of `add_y_data` calls: same resulting builder
state (series order, label order, limits), same success-or-error outcome, and
on a mid-list failure the entries before the failing one remain added. -/
theorem C6_add_y_sets_eq_chain (s : PState) (ys : List (List PyFloat))
    (ls : List (Option String)) (hlen : ls.length = ys.length) :
    SimplePlot.add_y_sets s ys (some ls) = chain_add_y s (ys.zip ls) := by
  unfold SimplePlot.add_y_sets
  dsimp only
  rw [if_neg (by omega)]
  have h0 := add_y_sets_go_eq_chain ys ls hlen ys.length 0 s (by omega)
  simpa using h0

/-- Witness for C6: the two-series instance of the claim, on a fresh
builder. -/
theorem C6_add_y_sets_eq_chain_witness :
    (([some "L1", some "L2"] : List (Option String)).length
      = ([[1], [2]] : List (List PyFloat)).length) ∧
    (SimplePlot.add_y_sets (SimplePlot.init none) [[1], [2]]
        (some [some "L1", some "L2"])
      = chain_add_y (SimplePlot.init none)
          ([[1], [2]].zip [some "L1", some "L2"])) :=
  ⟨rfl, C6_add_y_sets_eq_chain (SimplePlot.init none) [[1], [2]]
      [some "L1", some "L2"] rfl⟩

/-- Sequencing through `bind` preserves the dpi field whenever the
continuation does. -/
theorem PyRes.bind_state_dpi (r : PyRes) (f : PState → PyRes)
    (hf : ∀ s2, (f s2).state.dpi = s2.dpi) :
    (r.bind f).state.dpi = r.state.dpi := by
  cases r with
  | ok s2 => exact hf s2
  | exn s2 m => rfl

/-- The lower-X retraction never touches the dpi field. -/
theorem retract_lower_x_dpi (s : PState) (d : List PyFloat) :
    (SimplePlot.retract_lower_x s d).state.dpi = s.dpi := by
  unfold SimplePlot.retract_lower_x
  repeat' split
  all_goals rfl

/-- The upper-X retraction never touches the dpi field. -/
theorem retract_upper_x_dpi (s : PState) (d : List PyFloat) :
    (SimplePlot.retract_upper_x s d).state.dpi = s.dpi := by
  unfold SimplePlot.retract_upper_x
  repeat' split
  all_goals rfl

/-- The lower-Y retraction never touches the dpi field. -/
theorem retract_lower_y_dpi (s : PState) (d : List PyFloat) :
    (SimplePlot.retract_lower_y s d).state.dpi = s.dpi := by
  unfold SimplePlot.retract_lower_y
  repeat' split
  all_goals rfl

/-- The upper-Y retraction never touches the dpi field. -/
theorem retract_upper_y_dpi (s : PState) (d : List PyFloat) :
    (SimplePlot.retract_upper_y s d).state.dpi = s.dpi := by
  unfold SimplePlot.retract_upper_y
  repeat' split
  all_goals rfl

/-- The whole X-limit retraction block never touches the dpi field. -/
theorem retract_x_limits_dpi (s : PState) (d : List PyFloat) :
    (SimplePlot.retract_x_limits s d).state.dpi = s.dpi := by
  unfold SimplePlot.retract_x_limits
  rw [PyRes.bind_state_dpi _ _ (fun s2 => retract_upper_x_dpi s2 d),
    retract_lower_x_dpi]

/-- The whole Y-limit retraction block never touches the dpi field. -/
theorem retract_y_limits_dpi (s : PState) (d : List PyFloat) :
    (SimplePlot.retract_y_limits s d).state.dpi = s.dpi := by
  unfold SimplePlot.retract_y_limits
  rw [PyRes.bind_state_dpi _ _ (fun s2 => retract_upper_y_dpi s2 d),
    retract_lower_y_dpi]

/-- `set_x_data` never touches the dpi field. -/
theorem set_x_data_dpi (s : PState) (xd : List PyFloat) :
    (SimplePlot.set_x_data s xd).state.dpi = s.dpi := by
  unfold SimplePlot.set_x_data
  repeat' split
  all_goals
    first
      | rfl
      | rw [PyRes.bind_state_dpi _
              (fun s2 => PyRes.ok { s2 with x_data := some xd }) (fun s2 => rfl),
            retract_x_limits_dpi]

/-- `add_y_data` never touches the dpi field. -/
theorem add_y_data_dpi (s : PState) (yd : List PyFloat) (lab : Option String) :
    (SimplePlot.add_y_data s yd lab).state.dpi = s.dpi := by
  unfold SimplePlot.add_y_data
  repeat' split
  all_goals
    first
      | rfl
      | rw [PyRes.bind_state_dpi _
              (fun s2 => PyRes.ok { s2 with
                legend := s2.legend ++ [lab], y_data := s2.y_data ++ [yd] })
              (fun s2 => rfl),
            retract_y_limits_dpi]

/-- The `add_y_sets` loop never touches the dpi field. -/
theorem add_y_sets_go_dpi (ys : List (List PyFloat))
    (lso : Option (List (Option String))) :
    ∀ n i s, ys.length - i = n →
      (SimplePlot.add_y_sets_go ys lso i s).state.dpi = s.dpi := by
  intro n
  induction n with
  | zero =>
    intro i s h0
    unfold SimplePlot.add_y_sets_go
    rw [dif_neg (by omega)]
    rfl
  | succ n ih =>
    intro i s hn
    have hi : i < ys.length := by omega
    unfold SimplePlot.add_y_sets_go
    rw [dif_pos hi]
    dsimp only
    generalize (match lso with
      | some ls => ls.getD i none
      | none => (none : Option String)) = lab
    have hd := add_y_data_dpi s (ys.get ⟨i, hi⟩) lab
    cases h2 : SimplePlot.add_y_data s (ys.get ⟨i, hi⟩) lab with
    | ok s2 =>
      rw [h2] at hd
      simp only [PyRes.state] at hd
      rw [ih (i + 1) s2 (by omega), hd]
    | exn s2 m =>
      rw [h2] at hd
      simpa [PyRes.state] using hd

/-- `add_y_sets` never touches the dpi field. -/
theorem add_y_sets_dpi (s : PState) (ys : List (List PyFloat))
    (lso : Option (List (Option String))) :
    (SimplePlot.add_y_sets s ys lso).state.dpi = s.dpi := by
  unfold SimplePlot.add_y_sets
  rcases lso with _ | ls
  · exact add_y_sets_go_dpi ys none ys.length 0 s (by omega)
  · dsimp only
    split
    · rfl
    · exact add_y_sets_go_dpi ys (some ls) ys.length 0 s (by omega)

/-- `set_x_limits` never touches the dpi field. -/
theorem set_x_limits_dpi (s : PState) (a b : Option PyFloat) :
    (SimplePlot.set_x_limits s a b).state.dpi = s.dpi := by
  unfold SimplePlot.set_x_limits
  split <;> rfl

/-- `set_y_limits` never touches the dpi field. -/
theorem set_y_limits_dpi (s : PState) (a b : Option PyFloat) :
    (SimplePlot.set_y_limits s a b).state.dpi = s.dpi := by
  unfold SimplePlot.set_y_limits
  split <;> rfl

/-- `set_log_scale` never touches the dpi field. -/
theorem set_log_scale_dpi (s : PState) (x y : Bool) :
    (SimplePlot.set_log_scale s x y).dpi = s.dpi := by
  unfold SimplePlot.set_log_scale
  cases x <;> cases y <;> rfl

/-- `create` never touches the dpi field, whether it raises or delegates. -/
theorem create_state_dpi (fs : FS) (s : PState) (fn : Option String) :
    (SimplePlot.create fs s fn).state.dpi = s.dpi := by
  rcases hx : s.x_data with _ | xd
  · rw [create_no_x fs s fn hx]
    rfl
  · rcases fn with _ | f
    · rw [(create_cases fs s xd hx).1, create_delegate_state s xd none]
    · rcases hw : check_file_writable fs f with _ | _
      · rw [(create_cases fs s xd hx).2.2 f hw]
        rfl
      · rw [(create_cases fs s xd hx).2.1 f hw,
          create_delegate_state s xd (some f)]

/-- One public operation keeps the dpi strictly positive. -/
theorem stepState_dpi_pos (fs : FS) (s : PState) (op : Op) (h : 0 < s.dpi) :
    0 < (stepState fs s op).dpi := by
  cases op with
  | setDpi v =>
    simp only [stepState]
    unfold SimplePlot.set_dpi
    split
    · exact h
    · next hv => exact not_le.mp hv
  | setGrid c st =>
    cases c <;> simpa [stepState, SimplePlot.set_grid] using h
  | setXLabel l => simpa [stepState, SimplePlot.set_x_label] using h
  | setYLabel l => simpa [stepState, SimplePlot.set_y_label] using h
  | setXLimits a b =>
    simp only [stepState]
    rw [set_x_limits_dpi]
    exact h
  | setYLimits a b =>
    simp only [stepState]
    rw [set_y_limits_dpi]
    exact h
  | setXData d =>
    simp only [stepState]
    rw [set_x_data_dpi]
    exact h
  | addYData d l =>
    simp only [stepState]
    rw [add_y_data_dpi]
    exact h
  | addYSets ds ls =>
    simp only [stepState]
    rw [add_y_sets_dpi]
    exact h
  | setLogScale x y =>
    simp only [stepState]
    rw [set_log_scale_dpi]
    exact h
  | doCreate fn =>
    simp only [stepState]
    rw [create_state_dpi]
    exact h

/-- Positivity of dpi is preserved by every operation sequence. -/
theorem runOps_dpi_pos (fs : FS) : ∀ (ops : List Op) (s : PState),
    0 < s.dpi → 0 < (runOps fs s ops).dpi := by
  intro ops
  induction ops with
  | nil => intro s h; exact h
  | cons op rest ih =>
    intro s h
    simp only [runOps]
    exact ih _ (stepState_dpi_pos fs s op h)

/-- C7: `set_dpi` rejects every value coercing to a number `<= 0` with a
configuration error and an unchanged state, accepts every positive value,
and — starting from the default 1200 — the stored dpi stays strictly
positive after every sequence of public operations. -/
theorem C7_dpi_always_positive :
    (∀ (s : PState) (v : PyFloat), v ≤ 0 →
      SimplePlot.set_dpi s v = .exn s "Negative dpi value not allowed.") ∧
    (∀ (s : PState) (v : PyFloat), 0 < v →
      SimplePlot.set_dpi s v = .ok { s with dpi := v }) ∧
    (∀ t, (SimplePlot.init t).dpi = 1200) ∧
    (∀ (fs : FS) (t : Option String) (ops : List Op),
      0 < (runOps fs (SimplePlot.init t) ops).dpi) := by
  refine ⟨?_, ?_, fun t => rfl, ?_⟩
  · intro s v hv
    simp [SimplePlot.set_dpi, hv]
  · intro s v hv
    simp [SimplePlot.set_dpi, not_le.mpr hv]
  · intro fs t ops
    refine runOps_dpi_pos fs ops (SimplePlot.init t) ?_
    rw [show (SimplePlot.init t).dpi = 1200 from rfl]
    norm_num

/-- Witness for C7: a rejected zero, an accepted 300, and a concrete
operation sequence ending with a positive dpi. -/
theorem C7_dpi_always_positive_witness :
    ((0 : PyFloat) ≤ 0 ∧
      SimplePlot.set_dpi (SimplePlot.init none) 0
        = .exn (SimplePlot.init none) "Negative dpi value not allowed.") ∧
    ((0 : PyFloat) < 300 ∧
      SimplePlot.set_dpi (SimplePlot.init none) 300
        = .ok { SimplePlot.init none with dpi := 300 }) ∧
    (0 < (runOps fsNone (SimplePlot.init none)
        [Op.setDpi 300, Op.setXData [1], Op.doCreate none]).dpi) :=
  ⟨⟨le_refl 0, C7_dpi_always_positive.1 _ 0 (le_refl 0)⟩,
   ⟨by norm_num, C7_dpi_always_positive.2.1 _ 300 (by norm_num)⟩,
   C7_dpi_always_positive.2.2.2 fsNone none _⟩
